import Mathlib

/-!
Shallow embedding of the conversation state machine of a single-page RAG
chat client (source: src/App.tsx).  The client keeps an ordered message
history, persists it to a single local-storage key as JSON, sends prompts
to a backend over HTTP, and renders assistant replies with optional
sources and error text.

The embedding translates the data model and the handlers of App.tsx:
  * `Source`, `ChatMsg` — the TS types `Source` and `ChatMsg` (the two
    union variants share `id`/`text`/`ts`; a tag `Role` separates them,
    and the assistant-only optional fields are `Option`s that are `none`
    on user messages, matching the runtime objects).
  * `Json`, `encodeMsg`, `decodeMsg` — `JSON.stringify`/`JSON.parse` of
    the persisted message array.  `JSON.stringify` drops fields whose
    value is `undefined`, hence the conditional field lists.
  * `AppState` and the handlers `sendPrompt` (split into its synchronous
    prefix `sendPromptStart` and its continuation `sendPromptFinish`),
    `onSubmit`, `regenerate`, `loadMsgs`.
  * `toHref`, `renderSource`, `renderAssistant` — the presentation logic
    of `AssistantBubble`.
-/

/-- JavaScript string-or-default: `a || d` for an optional string `a`.
An absent value and the empty string are both falsy in JS. -/
def jsOrStr (a : Option String) (d : String) : String :=
  match a with
  | none => d
  | some s => if s = "" then d else s

/-- JS truthiness of an optional string (`undefined` and `""` are falsy). -/
def jsTruthyStr : Option String → Bool
  | none => false
  | some s => s != ""

/-- `String.prototype.trim()`: strip leading and trailing whitespace. -/
def jsTrim (s : String) : String :=
  String.mk (((s.data.dropWhile Char.isWhitespace).reverse.dropWhile
    Char.isWhitespace).reverse)

/-- TS `type Source = { id: string; key: string }`. -/
structure Source where
  id : String
  key : String
deriving DecidableEq, Repr

/-- Tag of the `ChatMsg` discriminated union (`role` field). -/
inductive Role where
  | user
  | assistant
deriving DecidableEq, Repr

/-- TS `ChatMsg` union.  Both variants carry `id`, `text`, `ts`; only
assistant messages ever carry `sources`/`error` (on user messages these
are `none`, matching the runtime objects created by App.tsx). -/
structure ChatMsg where
  id : String
  role : Role
  text : String
  ts : Int
  sources : Option (List Source) := none
  error : Option String := none
deriving DecidableEq, Repr

def ChatMsg.isUser (m : ChatMsg) : Bool := m.role == Role.user

def ChatMsg.isAssistant (m : ChatMsg) : Bool := m.role == Role.assistant

/-- JSON values, the image of `JSON.parse`. -/
inductive Json where
  | null
  | bool (b : Bool)
  | num (n : Int)
  | str (s : String)
  | arr (xs : List Json)
  | obj (fields : List (String × Json))

/-- The serialized `role` field. -/
def roleStr : Role → String
  | Role.user => "user"
  | Role.assistant => "assistant"

/-- `JSON.stringify` of one `Source`. -/
def encodeSource (s : Source) : Json :=
  Json.obj [("id", Json.str s.id), ("key", Json.str s.key)]

/-- `JSON.stringify` of one `ChatMsg`: field order follows the object
literals in App.tsx; `undefined` optional fields are dropped. -/
def encodeMsg (m : ChatMsg) : Json :=
  Json.obj
    ([("id", Json.str m.id), ("role", Json.str (roleStr m.role)),
      ("text", Json.str m.text), ("ts", Json.num m.ts)]
      ++ (match m.sources with
          | some ss => [("sources", Json.arr (ss.map encodeSource))]
          | none => [])
      ++ (match m.error with
          | some e => [("error", Json.str e)]
          | none => []))

/-- `JSON.stringify` of the message array (the persisted layout). -/
def encodeMsgs (ms : List ChatMsg) : Json :=
  Json.arr (ms.map encodeMsg)

def asStr : Option Json → Option String
  | some (Json.str s) => some s
  | _ => none

def asInt : Option Json → Option Int
  | some (Json.num n) => some n
  | _ => none

def decodeRole : Option Json → Option Role
  | some (Json.str "user") => some Role.user
  | some (Json.str "assistant") => some Role.assistant
  | _ => none

/-- Reading one persisted `Source` back. -/
def decodeSource (j : Json) : Option Source :=
  match j with
  | Json.obj fs =>
    match asStr (fs.lookup "id"), asStr (fs.lookup "key") with
    | some i, some k => some ⟨i, k⟩
    | _, _ => none
  | _ => none

/-- Decode every element of a JSON array, failing if any element fails. -/
def decodeList {α : Type} (f : Json → Option α) : List Json → Option (List α)
  | [] => some []
  | j :: rest =>
    match f j, decodeList f rest with
    | some a, some as => some (a :: as)
    | _, _ => none

def decodeSources : Option Json → Option (Option (List Source))
  | none => some none
  | some (Json.arr xs) =>
    match decodeList decodeSource xs with
    | some ss => some (some ss)
    | none => none
  | some _ => none

def decodeErr : Option Json → Option (Option String)
  | none => some none
  | some (Json.str e) => some (some e)
  | some _ => none

/-- Reading one persisted `ChatMsg` back.  The TS source casts the parsed
value with `as ChatMsg[]` without runtime validation; the decoder is the
typed transport of that cast, total on the image of `encodeMsg`. -/
def decodeMsg (j : Json) : Option ChatMsg :=
  match j with
  | Json.obj fs =>
    match decodeRole (fs.lookup "role"), asStr (fs.lookup "id"),
          asStr (fs.lookup "text"), asInt (fs.lookup "ts"),
          decodeSources (fs.lookup "sources"), decodeErr (fs.lookup "error") with
    | some r, some i, some t, some n, some ss, some er =>
      some ⟨i, r, t, n, ss, er⟩
    | _, _, _, _, _, _ => none
  | _ => none

def decodeMsgs (j : Json) : Option (List ChatMsg) :=
  match j with
  | Json.arr xs => decodeList decodeMsg xs
  | _ => none

/-- Content of the local-storage cell: a well-formed JSON text (every
value `JSON.stringify` emits) or a string `JSON.parse` throws on. -/
inductive Raw where
  | json (j : Json)
  | notJson

theorem decodeSource_encodeSource (s : Source) :
    decodeSource (encodeSource s) = some s := by
  cases s
  rfl

theorem decodeList_encodeSource (ss : List Source) :
    decodeList decodeSource (ss.map encodeSource) = some ss := by
  induction ss with
  | nil => rfl
  | cons s rest ih =>
    simp [decodeList, decodeSource_encodeSource, ih]

theorem decodeMsg_encodeMsg (m : ChatMsg) :
    decodeMsg (encodeMsg m) = some m := by
  obtain ⟨i, r, t, n, ss, er⟩ := m
  cases r <;> cases ss <;> cases er <;>
    simp [encodeMsg, decodeMsg, roleStr, List.lookup, decodeRole, asStr, asInt,
      decodeSources, decodeErr, decodeList_encodeSource]

theorem decodeMsgs_encodeMsgs (ms : List ChatMsg) :
    decodeMsgs (encodeMsgs ms) = some ms := by
  induction ms with
  | nil => rfl
  | cons m rest ih =>
    simp only [encodeMsgs, decodeMsgs, List.map_cons, decodeList,
      decodeMsg_encodeMsg] at *
    simp [ih]

/-! ## Application state and handlers -/

/-- The React component state of `App`, together with the local-storage
cell (`storage`, keyed by `LS_KEY` in the source) and the trace of HTTP
request bodies POSTed to the `/rag` endpoint (`requests`): each entry is
the trimmed question of one issued `fetch`. -/
structure AppState where
  input : String
  msgs : List ChatMsg
  loading : Bool
  storage : Option Raw
  requests : List String

/-- Result of awaiting `fetch` + `r.json()`: either a parsed backend
payload, or a thrown error carrying `err?.message` (absent when the
thrown value has no message property). -/
structure BackendOut where
  answer : Option String := none
  sources : Option (List Source) := none
  error : Option String := none
deriving DecidableEq

inductive FetchResult where
  | success (data : BackendOut)
  | failure (errMsg : Option String)
deriving DecidableEq

/-- Replace the message list; the `useEffect` persist hook mirrors every
change of `msgs` to local storage (write-through). -/
def setMsgsApp (s : AppState) (ms : List ChatMsg) : AppState :=
  { s with msgs := ms, storage := some (Raw.json (encodeMsgs ms)) }

/-- The synchronous prefix of `sendPrompt`: append the optimistic user
message, set `loading`, and issue the POST with the trimmed question.
`uid` is the `crypto.randomUUID()` value and `ts1` the `Date.now()`
timestamp drawn at this point. -/
def sendPromptStart (prompt uid : String) (ts1 : Int) (s : AppState) : AppState :=
  let userMsg : ChatMsg := { id := uid, role := Role.user, text := prompt, ts := ts1 }
  let s1 := setMsgsApp s (s.msgs ++ [userMsg])
  { s1 with loading := true, requests := s1.requests ++ [jsTrim prompt] }

/-- The continuation of `sendPrompt` once the awaited call resolves:
the try-branch appends the assistant message built from the payload
(`text: data.answer || ""`), the catch-branch appends one with empty
text and `error: err?.message || "Network error"`, and in both cases the
`finally` block clears `loading`. -/
def sendPromptFinish (result : FetchResult) (aid : String) (ts2 : Int)
    (s : AppState) : AppState :=
  match result with
  | FetchResult.success data =>
    let asstMsg : ChatMsg :=
      { id := aid, role := Role.assistant, text := jsOrStr data.answer "",
        ts := ts2, sources := data.sources, error := data.error }
    { setMsgsApp s (s.msgs ++ [asstMsg]) with loading := false }
  | FetchResult.failure em =>
    let asstMsg : ChatMsg :=
      { id := aid, role := Role.assistant, text := "", ts := ts2,
        error := some (jsOrStr em "Network error") }
    { setMsgsApp s (s.msgs ++ [asstMsg]) with loading := false }

/-- `sendPrompt(prompt)` run to completion, with the outcome of the
backend call supplied as `result`. -/
def sendPrompt (prompt : String) (result : FetchResult) (uid aid : String)
    (ts1 ts2 : Int) (s : AppState) : AppState :=
  sendPromptFinish result aid ts2 (sendPromptStart prompt uid ts1 s)

/-- The form submit handler: rejected when the trimmed input is empty or
a request is in flight; otherwise clears the input and sends the trimmed
question. -/
def onSubmit (result : FetchResult) (uid aid : String) (ts1 ts2 : Int)
    (s : AppState) : AppState :=
  if jsTrim s.input == "" || s.loading then s
  else sendPrompt (jsTrim s.input) result uid aid ts1 ts2 { s with input := "" }

/-- The reverse scan `[...msgs].reverse().find((m) => m.role === "user")`. -/
def lastUserOf (ms : List ChatMsg) : Option ChatMsg :=
  ms.reverse.find? (fun m => m.role == Role.user)

/-- If the very last message is an assistant message, pop it. -/
def removeTrailingAssistant (ms : List ChatMsg) : List ChatMsg :=
  match ms.getLast? with
  | some m => if m.role == Role.assistant then ms.dropLast else ms
  | none => ms

/-- The regenerate handler: no-op while loading or when no user message
exists; otherwise sets `loading`, drops a trailing assistant message if
present, and re-sends the text of the most recent user message. -/
def regenerate (result : FetchResult) (uid aid : String) (ts1 ts2 : Int)
    (s : AppState) : AppState :=
  if s.loading then s
  else
    match lastUserOf s.msgs with
    | none => s
    | some lastUser =>
      let s1 : AppState := { s with loading := true }
      let s2 := setMsgsApp s1 (removeTrailingAssistant s1.msgs)
      sendPrompt lastUser.text result uid aid ts1 ts2 s2

/-- The `useState` initializer for `msgs`: absent entry yields `[]`, a
`JSON.parse` throw is caught and yields `[]`.  The TS source casts the
parsed value unchecked (`as ChatMsg[]`); values outside the persisted
message format (never written by the app itself) map to `[]` here. -/
def loadMsgs (storage : Option Raw) : List ChatMsg :=
  match storage with
  | none => []
  | some Raw.notJson => []
  | some (Raw.json j) =>
    match decodeMsgs j with
    | some ms => ms
    | none => []

/-- The storage cell as the persist hook writes it for history `ms`. -/
def persistedOf (ms : List ChatMsg) : Option Raw :=
  some (Raw.json (encodeMsgs ms))

/-! ## Presentation (`toHref`, `AssistantBubble`) -/

/-- Case-insensitive ASCII lowering, the `/i` flag of the regex. -/
def asciiLower (c : Char) : Char :=
  if 'A' ≤ c ∧ c ≤ 'Z' then Char.ofNat (c.toNat + 32) else c

/-- `/^https?:\/\//i.test(s)`: `s` starts with `http://` or `https://`,
case-insensitively. -/
def isHttpUrl (s : String) : Bool :=
  let l := s.toList.map asciiLower
  decide (("http://".toList).IsPrefix l) || decide (("https://".toList).IsPrefix l)

/-- `toHref`: the string itself when it matches the URL pattern, else
`undefined`. -/
def toHref (s : String) : Option String :=
  if isHttpUrl s then some s else none

/-- Rendering of one source item in the sources list: a hyperlink with
the given href and the source id as its label, or the id as an inline
code chip. -/
inductive SourceView where
  | link (href : String) (label : String)
  | chip (label : String)
deriving DecidableEq, Repr

def SourceView.isLink : SourceView → Bool
  | SourceView.link _ _ => true
  | SourceView.chip _ => false

/-- One `<li>` of `AssistantBubble`: `const href = toHref(s.key) || toHref(s.id)`,
then a link labelled `s.id` when `href` is defined, else a code chip. -/
def renderSource (s : Source) : SourceView :=
  match toHref s.key <|> toHref s.id with
  | some href => SourceView.link href s.id
  | none => SourceView.chip s.id

/-- The sources block: omitted when `sources` is absent or empty
(`!!sources?.length &&`). -/
def renderSources (sources : Option (List Source)) : List SourceView :=
  match sources with
  | some ss => if ss.isEmpty then [] else ss.map renderSource
  | none => []

/-- What an assistant bubble shows: an error bubble (`Error: <msg>`), or
the answer body with its rendered sources. -/
inductive BubbleView where
  | errorBubble (msg : String)
  | answerBubble (body : String) (sources : List SourceView)
deriving DecidableEq, Repr

/-- `AssistantBubble`: `error ?` picks the error bubble by JS truthiness
of the string; otherwise the body is `text || "—"` plus the sources. -/
def renderAssistant (text : String) (sources : Option (List Source))
    (error : Option String) : BubbleView :=
  if jsTruthyStr error then BubbleView.errorBubble (error.getD "")
  else BubbleView.answerBubble (if text == "" then "—" else text)
    (renderSources sources)

/-! ## Concrete fixtures used by witness instances -/

def msgUserHi : ChatMsg :=
  { id := "u1", role := Role.user, text := "hi", ts := 0 }

def msgAsstYo : ChatMsg :=
  { id := "a1", role := Role.assistant, text := "yo", ts := 1 }

/-- Fresh application state: empty input, empty history, idle. -/
def st0 : AppState :=
  { input := "", msgs := [], loading := false, storage := none, requests := [] }

/-- Idle state whose history is one user message and one assistant reply. -/
def stPair : AppState :=
  { input := "", msgs := [msgUserHi, msgAsstYo], loading := false,
    storage := none, requests := [] }

/-- Idle state whose composer input is whitespace only. -/
def stBlank : AppState :=
  { input := "   ", msgs := [], loading := false, storage := none,
    requests := [] }

/-- Idle state whose history holds no user message. -/
def stAsstOnly : AppState :=
  { input := "", msgs := [msgAsstYo], loading := false, storage := none,
    requests := [] }

/-! ## Claim theorems -/

/-- C1: for every prompt that is non-empty after trimming, one call to
`sendPrompt` appends exactly one user message already in its synchronous
prefix (before the backend call resolves) and exactly one assistant
message once the call resolves, for every outcome. -/
theorem sendPrompt_appends_one_user_one_assistant
    (prompt : String) (hp : jsTrim prompt ≠ "")
    (result : FetchResult) (uid aid : String) (ts1 ts2 : Int) (s : AppState) :
    ∃ u a : ChatMsg,
      (sendPromptStart prompt uid ts1 s).msgs = s.msgs ++ [u] ∧
      u.role = Role.user ∧
      (sendPrompt prompt result uid aid ts1 ts2 s).msgs = s.msgs ++ [u, a] ∧
      a.role = Role.assistant := by
  cases result with
  | success data =>
    refine ⟨{ id := uid, role := Role.user, text := prompt, ts := ts1 },
      { id := aid, role := Role.assistant, text := jsOrStr data.answer "",
        ts := ts2, sources := data.sources, error := data.error },
      rfl, rfl, ?_, rfl⟩
    simp [sendPrompt, sendPromptStart, sendPromptFinish, setMsgsApp]
  | failure em =>
    refine ⟨{ id := uid, role := Role.user, text := prompt, ts := ts1 },
      { id := aid, role := Role.assistant, text := "", ts := ts2,
        error := some (jsOrStr em "Network error") },
      rfl, rfl, ?_, rfl⟩
    simp [sendPrompt, sendPromptStart, sendPromptFinish, setMsgsApp]

theorem sendPrompt_appends_one_user_one_assistant_inst :
    ∃ u a : ChatMsg,
      (sendPromptStart "hi" "u9" 7 st0).msgs = st0.msgs ++ [u] ∧
      u.role = Role.user ∧
      (sendPrompt "hi" (FetchResult.failure none) "u9" "a9" 7 8 st0).msgs
        = st0.msgs ++ [u, a] ∧
      a.role = Role.assistant :=
  sendPrompt_appends_one_user_one_assistant "hi" (by decide)
    (FetchResult.failure none) "u9" "a9" 7 8 st0

/-- C2: when a user message exists and the controller is idle,
`regenerate` rebuilds the history as `removeTrailingAssistant` of the old
one plus a fresh user message (with the text of the most recent user
message) and a fresh assistant message; the removal step drops exactly
the one trailing message when the last message is an assistant message
and drops nothing when the last message is a user message. -/
theorem regenerate_replaces_trailing_assistant
    (s : AppState) (hl : s.loading = false) (u : ChatMsg)
    (hu : lastUserOf s.msgs = some u)
    (result : FetchResult) (uid aid : String) (ts1 ts2 : Int) :
    ∃ u2 a2 : ChatMsg,
      (regenerate result uid aid ts1 ts2 s).msgs
        = removeTrailingAssistant s.msgs ++ [u2, a2] ∧
      u2.role = Role.user ∧ u2.text = u.text ∧ a2.role = Role.assistant ∧
      (∀ m, s.msgs.getLast? = some m → m.role = Role.assistant →
        removeTrailingAssistant s.msgs = s.msgs.dropLast) ∧
      (∀ m, s.msgs.getLast? = some m → m.role = Role.user →
        removeTrailingAssistant s.msgs = s.msgs) := by
  have hrem : ∀ m, s.msgs.getLast? = some m → m.role = Role.assistant →
      removeTrailingAssistant s.msgs = s.msgs.dropLast := by
    intro m hm hrole
    simp [removeTrailingAssistant, hm, hrole]
  have hkeep : ∀ m, s.msgs.getLast? = some m → m.role = Role.user →
      removeTrailingAssistant s.msgs = s.msgs := by
    intro m hm hrole
    simp [removeTrailingAssistant, hm, hrole]
  have hmain : (regenerate result uid aid ts1 ts2 s).msgs
      = (sendPrompt u.text result uid aid ts1 ts2
          (setMsgsApp { s with loading := true }
            (removeTrailingAssistant s.msgs))).msgs := by
    simp only [regenerate, hl, Bool.false_eq_true, if_false, hu]
  cases result with
  | success data =>
    refine ⟨{ id := uid, role := Role.user, text := u.text, ts := ts1 },
      { id := aid, role := Role.assistant, text := jsOrStr data.answer "",
        ts := ts2, sources := data.sources, error := data.error },
      ?_, rfl, rfl, rfl, hrem, hkeep⟩
    rw [hmain]
    simp [sendPrompt, sendPromptStart, sendPromptFinish, setMsgsApp]
  | failure em =>
    refine ⟨{ id := uid, role := Role.user, text := u.text, ts := ts1 },
      { id := aid, role := Role.assistant, text := "", ts := ts2,
        error := some (jsOrStr em "Network error") },
      ?_, rfl, rfl, rfl, hrem, hkeep⟩
    rw [hmain]
    simp [sendPrompt, sendPromptStart, sendPromptFinish, setMsgsApp]

theorem regenerate_replaces_trailing_assistant_inst :
    ∃ u2 a2 : ChatMsg,
      (regenerate (FetchResult.failure none) "u3" "a3" 4 5 stPair).msgs
        = removeTrailingAssistant stPair.msgs ++ [u2, a2] ∧
      u2.role = Role.user ∧ u2.text = msgUserHi.text ∧
      a2.role = Role.assistant ∧
      (∀ m, stPair.msgs.getLast? = some m → m.role = Role.assistant →
        removeTrailingAssistant stPair.msgs = stPair.msgs.dropLast) ∧
      (∀ m, stPair.msgs.getLast? = some m → m.role = Role.user →
        removeTrailingAssistant stPair.msgs = stPair.msgs) :=
  regenerate_replaces_trailing_assistant stPair rfl msgUserHi (by decide)
    (FetchResult.failure none) "u3" "a3" 4 5

/-- C3: the `msgs` initializer yields the empty history both when the
persisted entry is absent and when it is malformed (a `JSON.parse`
throw), covering every storage state the two conditions describe; the
failure is swallowed, the initializer just returns a value. -/
theorem loadMsgs_absent_or_malformed :
    loadMsgs none = [] ∧ loadMsgs (some Raw.notJson) = [] :=
  ⟨rfl, rfl⟩

/-- C4: submitting an input that trims to the empty string leaves the
whole application state untouched — no message is appended, no request
is issued, nothing changes. -/
theorem onSubmit_blank_input_noop (s : AppState) (h : jsTrim s.input = "")
    (result : FetchResult) (uid aid : String) (ts1 ts2 : Int) :
    onSubmit result uid aid ts1 ts2 s = s := by
  simp [onSubmit, h]

theorem onSubmit_blank_input_noop_inst :
    onSubmit (FetchResult.failure none) "u4" "a4" 0 0 stBlank = stBlank :=
  onSubmit_blank_input_noop stBlank (by decide) (FetchResult.failure none)
    "u4" "a4" 0 0

/-- C5: serializing a history to the storage cell and loading it back
yields the identical ordered sequence, and saving the loaded value
writes back exactly the same cell (idempotence of save/load). -/
theorem persist_load_roundtrip (ms : List ChatMsg) :
    loadMsgs (persistedOf ms) = ms ∧
    persistedOf (loadMsgs (persistedOf ms)) = persistedOf ms := by
  have h : loadMsgs (persistedOf ms) = ms := by
    simp [loadMsgs, persistedOf, decodeMsgs_encodeMsgs]
  exact ⟨h, by rw [h]⟩

/-- C6: when the history holds no user message, `regenerate` returns the
state unchanged: same messages, same `loading` flag, same storage, and
no new entry in the request trace. -/
theorem regenerate_no_user_noop (s : AppState)
    (h : ∀ m ∈ s.msgs, m.role ≠ Role.user)
    (result : FetchResult) (uid aid : String) (ts1 ts2 : Int) :
    regenerate result uid aid ts1 ts2 s = s := by
  have hfind : lastUserOf s.msgs = none := by
    unfold lastUserOf
    rw [List.find?_eq_none]
    intro x hx
    simp [h x (List.mem_reverse.mp hx)]
  simp [regenerate, hfind]

theorem regenerate_no_user_noop_inst :
    regenerate (FetchResult.failure none) "u6" "a6" 0 0 stAsstOnly
      = stAsstOnly :=
  regenerate_no_user_noop stAsstOnly (by decide) (FetchResult.failure none)
    "u6" "a6" 0 0

/-- C7: when the backend call fails (network or JSON-parse throw), the
resolved call appends one assistant message with empty text whose error
field is the thrown message, or the default "Network error" when no
message is available; that error string is never empty. -/
theorem sendPrompt_failure_error_field
    (prompt : String) (em : Option String) (uid aid : String)
    (ts1 ts2 : Int) (s : AppState) :
    ∃ a : ChatMsg,
      (sendPrompt prompt (FetchResult.failure em) uid aid ts1 ts2 s).msgs
        = (sendPromptStart prompt uid ts1 s).msgs ++ [a] ∧
      a.role = Role.assistant ∧ a.text = "" ∧
      a.error = some (jsOrStr em "Network error") ∧
      jsOrStr em "Network error" ≠ "" ∧
      (em = none → jsOrStr em "Network error" = "Network error") ∧
      (∀ d, em = some d → d ≠ "" → jsOrStr em "Network error" = d) := by
  refine ⟨{ id := aid, role := Role.assistant, text := "", ts := ts2,
            error := some (jsOrStr em "Network error") },
    rfl, rfl, rfl, rfl, ?_, ?_, ?_⟩
  · cases em with
    | none => decide
    | some d =>
      by_cases hd : d = "" <;> simp [jsOrStr, hd]
  · intro he
    subst he
    rfl
  · intro d hd hne
    subst hd
    simp [jsOrStr, hne]

theorem sendPrompt_failure_error_field_inst :
    ∃ a : ChatMsg,
      (sendPrompt "hi" (FetchResult.failure (some "boom")) "u7" "a7" 0 1
        st0).msgs
        = (sendPromptStart "hi" "u7" 0 st0).msgs ++ [a] ∧
      a.role = Role.assistant ∧ a.text = "" ∧
      a.error = some (jsOrStr (some "boom") "Network error") ∧
      jsOrStr (some "boom") "Network error" ≠ "" ∧
      (some "boom" = none →
        jsOrStr (some "boom") "Network error" = "Network error") ∧
      (∀ d, some "boom" = some d → d ≠ "" →
        jsOrStr (some "boom") "Network error" = d) :=
  sendPrompt_failure_error_field "hi" (some "boom") "u7" "a7" 0 1 st0

/-- C8: whatever the outcome of the backend call, a completed
`sendPrompt` ends with the controller idle again: the `finally` block
clears `loading`. -/
theorem sendPrompt_returns_to_idle
    (prompt : String) (hp : jsTrim prompt ≠ "") (s : AppState)
    (hs : s.loading = false)
    (result : FetchResult) (uid aid : String) (ts1 ts2 : Int) :
    (sendPrompt prompt result uid aid ts1 ts2 s).loading = false := by
  cases result <;> rfl

theorem sendPrompt_returns_to_idle_inst :
    (sendPrompt "hi" (FetchResult.success {}) "u8" "a8" 0 1 st0).loading
      = false :=
  sendPrompt_returns_to_idle "hi" (by decide) st0 rfl (FetchResult.success {})
    "u8" "a8" 0 1

/-- C9: a source item is rendered as a hyperlink exactly when its key
or, failing that, its id matches the absolute http(s) URL pattern; when
neither matches, the id is rendered as a plain code chip; when both
match, the key is the link target (with the id as the label). -/
theorem renderSource_link_iff (s : Source) :
    ((renderSource s).isLink = true ↔
      (isHttpUrl s.key = true ∨ isHttpUrl s.id = true)) ∧
    (isHttpUrl s.key = false → isHttpUrl s.id = false →
      renderSource s = SourceView.chip s.id) ∧
    (isHttpUrl s.key = true → isHttpUrl s.id = true →
      renderSource s = SourceView.link s.key s.id) := by
  cases hk : isHttpUrl s.key <;> cases hi : isHttpUrl s.id <;>
    simp [renderSource, toHref, hk, hi, SourceView.isLink]

theorem renderSource_link_iff_inst :
    ((renderSource ⟨"doc1", "https://example.com/doc1"⟩).isLink = true ↔
      (isHttpUrl (Source.mk "doc1" "https://example.com/doc1").key = true ∨
       isHttpUrl (Source.mk "doc1" "https://example.com/doc1").id = true)) ∧
    (isHttpUrl (Source.mk "doc1" "https://example.com/doc1").key = false →
      isHttpUrl (Source.mk "doc1" "https://example.com/doc1").id = false →
      renderSource ⟨"doc1", "https://example.com/doc1"⟩
        = SourceView.chip "doc1") ∧
    (isHttpUrl (Source.mk "doc1" "https://example.com/doc1").key = true →
      isHttpUrl (Source.mk "doc1" "https://example.com/doc1").id = true →
      renderSource ⟨"doc1", "https://example.com/doc1"⟩
        = SourceView.link "https://example.com/doc1" "doc1") :=
  renderSource_link_iff ⟨"doc1", "https://example.com/doc1"⟩

/-- C10: an assistant message whose error field is present but empty is
rendered as an answer bubble — identical to an absent error — showing
the text (or the em-dash placeholder when the text is empty) and the
sources; the choice is decided by JS truthiness, not presence. -/
theorem renderAssistant_blank_error_is_answer
    (t : String) (srcs : Option (List Source)) :
    renderAssistant t srcs (some "") = renderAssistant t srcs none ∧
    renderAssistant t srcs (some "")
      = BubbleView.answerBubble (if t == "" then "—" else t)
          (renderSources srcs) := by
  constructor <;> rfl
